import Mathlib

/-!
Shallow embedding of the `agent-argocd` repository's bespoke logic.

The repository's only original code is:
* `make_api_request` in
  `agent_argocd/protocol_bindings/mcp_server/mcp_argocd/api/client.py`:
  an authenticated HTTP helper that normalises success/failure into a
  `(bool, dict)` pair; and
* the agent invocation shim `_async_argocd_agent` (its module
  `agent_argocd/agent.py` is exercised by `tests/test_agent.py`).

The embedding below translates `make_api_request` line by line.  Network
behaviour is an oracle (`TransportOutcome`): the value the single
`await client.<method>(...)` call at the dispatch point either returns
(a `Response`) or raises (one of the `httpx` exception kinds caught by
the function's `except` clauses).  JSON values are a small inductive
`Json`; Python truthiness, the `in` operator, `str()` conversion,
subscripting, `str.replace` and slicing are modelled with their Python
semantics over the character lists of the strings involved, including
the `TypeError`s that `in`/`[]` raise on non-container values (those
propagate to the function's final `except Exception` clause).
-/

namespace AgentArgocd

/-- `isPrefixChars pat cs` : `pat` is a prefix of `cs` (character lists). -/
def isPrefixChars : List Char → List Char → Bool
  | [], _ => true
  | _ :: _, [] => false
  | a :: as, b :: bs => a == b && isPrefixChars as bs

/-- `containsChars cs pat` : Python `pat in cs` on character lists
(occurrence of `pat` as a contiguous substring; `[]` occurs in
everything, as the empty string does in Python). -/
def containsChars : List Char → List Char → Bool
  | [], pat => isPrefixChars pat []
  | c :: cs, pat => isPrefixChars pat (c :: cs) || containsChars cs pat

/-- Python `sub in s` for strings. -/
def pyContains (s sub : String) : Bool :=
  containsChars s.toList sub.toList

/-- Left-to-right, non-overlapping replacement of `pat` by `rep` in `cs`
(the semantics of Python `str.replace` for a non-empty pattern).  The
fuel argument only makes the recursion structural; `fuel = cs.length`
is enough, since every step consumes at least one character. -/
def replaceChars : Nat → List Char → List Char → List Char → List Char
  | _, [], _, _ => []
  | 0, cs, _, _ => cs
  | fuel + 1, c :: cs, pat, rep =>
      if isPrefixChars pat (c :: cs) then
        rep ++ replaceChars fuel ((c :: cs).drop pat.length) pat rep
      else
        c :: replaceChars fuel cs pat rep

/-- Python `s.replace(pat, rep)` (every occurrence, left to right,
non-overlapping). -/
def pyReplace (s pat rep : String) : String :=
  ⟨replaceChars s.toList.length s.toList pat.toList rep.toList⟩

/-- Python `s[:n]` : the first `n` characters of `s`. -/
def pySlice (s : String) (n : Nat) : String :=
  ⟨s.toList.take n⟩

/-- JSON values, as returned by `response.json()` in the Python client.
Objects keep their field list; `json.loads` produces a `dict`, so a
well-formed parse has distinct keys (with duplicate keys the last one
wins, which `objGet` mirrors). -/
inductive Json where
  | null
  | bool (b : Bool)
  | num (n : Int)
  | str (s : String)
  | arr (elems : List Json)
  | obj (fields : List (String × Json))

mutual

/-- Structural equality of JSON values (Python `==` on parsed JSON). -/
def Json.beq : Json → Json → Bool
  | .null, .null => true
  | .bool a, .bool b => a == b
  | .num a, .num b => a == b
  | .str a, .str b => a == b
  | .arr a, .arr b => beqJsonList a b
  | .obj a, .obj b => beqJsonFields a b
  | _, _ => false

/-- Elementwise equality of JSON arrays. -/
def beqJsonList : List Json → List Json → Bool
  | [], [] => true
  | a :: as, b :: bs => Json.beq a b && beqJsonList as bs
  | _, _ => false

/-- Entrywise equality of JSON object field lists. -/
def beqJsonFields : List (String × Json) → List (String × Json) → Bool
  | [], [] => true
  | (ka, va) :: as, (kb, vb) :: bs => ka == kb && Json.beq va vb && beqJsonFields as bs
  | _, _ => false

end

instance : BEq Json := ⟨Json.beq⟩

/-- Lookup of a key in a parsed JSON object (`dict` access semantics:
with duplicate keys from `json.loads`, the last occurrence wins). -/
def objGet (fields : List (String × Json)) (key : String) : Option Json :=
  ((fields.filter (fun p => p.1 == key)).getLast?).map Prod.snd

/-- The Python type name of a JSON value, used in `TypeError` messages. -/
def Json.pyTypeName : Json → String
  | .null => "NoneType"
  | .bool _ => "bool"
  | .num _ => "int"
  | .str _ => "str"
  | .arr _ => "list"
  | .obj _ => "dict"

mutual

/-- Python `repr()` of a JSON value (string escaping inside `repr` is
not modelled; no claim depends on it). -/
def Json.pyRepr : Json → String
  | .null => "None"
  | .bool b => if b then "True" else "False"
  | .num n => toString n
  | .str s => "'" ++ s ++ "'"
  | .arr xs => "[" ++ String.intercalate ", " (pyReprList xs) ++ "]"
  | .obj fs => "\x7b" ++ String.intercalate ", " (pyReprFields fs) ++ "\x7d"

/-- `repr()` of each element of a JSON array. -/
def pyReprList : List Json → List String
  | [] => []
  | x :: xs => Json.pyRepr x :: pyReprList xs

/-- `repr()` of each `key: value` entry of a JSON object. -/
def pyReprFields : List (String × Json) → List String
  | [] => []
  | (k, v) :: xs => ("'" ++ k ++ "': " ++ Json.pyRepr v) :: pyReprFields xs

end

/-- Python `str()` of a JSON value, as interpolated by the f-string
`f"{error_message} - {error_data['error']}"`. -/
def Json.pyStr : Json → String
  | .str s => s
  | j => j.pyRepr

/-- Python `key in value` on a JSON value: key membership for a `dict`,
substring test for a `str`, element membership for a `list`; on any
other value the operator raises `TypeError` (modelled as `.error` with
the interpreter's message). -/
def Json.pyIn (key : String) : Json → Except String Bool
  | .obj fields => .ok (fields.any (fun p => p.1 == key))
  | .str s => .ok (pyContains s key)
  | .arr xs => .ok (xs.any (fun x => x == .str key))
  | j => .error ("argument of type '" ++ j.pyTypeName ++ "' is not iterable")

/-- Python `value[key]` subscripting with a string key: `dict` lookup
(raising `KeyError` when absent), `TypeError` on every other value. -/
def Json.pySubscript : Json → String → Except String Json
  | .obj fields, key =>
      match objGet fields key with
      | some v => .ok v
      | none => .error ("'" ++ key ++ "'")
  | .str _, _ => .error "string indices must be integers"
  | .arr _, _ => .error "list indices must be integers or slices, not str"
  | j, _ => .error ("'" ++ j.pyTypeName ++ "' object is not subscriptable")

/-- Python truthiness of an optional string (`not token` is true for
`None` and for the empty string). -/
def optStrFalsy : Option String → Bool
  | none => true
  | some s => s == ""

/-- The HTTP response the transport returned: status code, the outcome
of `response.json()` (`.error` models the `ValueError` raised on a
non-JSON body), and `response.text`. -/
structure Response where
  status : Nat
  jsonOutcome : Except Unit Json
  text : String

/-- What happens at the dispatch point
`response = await method_map[method](url, **request_kwargs)`:
either a response comes back, or one of the exception kinds caught by
`make_api_request`'s `except` clauses is raised (`httpx.TimeoutException`,
`httpx.HTTPStatusError` carrying `e.response.status_code` and `str(e)`,
`httpx.RequestError` carrying `str(e)`, or any other exception). -/
inductive TransportOutcome where
  | ok (r : Response)
  | timeoutException
  | httpStatusError (status : Nat) (msg : String)
  | requestError (msg : String)
  | unexpectedError (msg : String)

/-- The result of `make_api_request`: the returned `(success, payload)`
pair, plus an instrumentation bit recording whether the HTTP request
was dispatched (whether control reached the `await` at the dispatch
point). -/
structure ApiResult where
  success : Bool
  payload : Json
  dispatched : Bool

/-- The keys of the `method_map` dict (its values, the `httpx` client
callables, live behind the `TransportOutcome` oracle). -/
def method_map : List String := ["GET", "POST", "PUT", "PATCH", "DELETE"]

/-- The final `except Exception as e` clause: `str(e)` with the token
redacted when present, wrapped as an `Unexpected error`. -/
def pyCatchAll (token msg : String) : ApiResult :=
  let error_message :=
    if token != "" && pyContains msg token then pyReplace msg token "[REDACTED]"
    else msg
  ⟨false, .obj [("error", .str ("Unexpected error: " ++ error_message))], true⟩

/-- Response handling of `make_api_request` (the code from
`if response.status_code in [200, 201, 202, 204]:` down to the
non-JSON error return).  A `TypeError` raised by `"error" in error_data`
or `error_data['error']` on a non-dict JSON value propagates to the
outer `except Exception` clause, i.e. to `pyCatchAll`. -/
def handleResponse (token : String) (r : Response) : ApiResult :=
  if [200, 201, 202, 204].contains r.status then
    if r.status == 204 then
      ⟨true, .obj [("status", .str "success")], true⟩
    else
      match r.jsonOutcome with
      | .ok response_data => ⟨true, response_data, true⟩
      | .error _ => ⟨true, .obj [("status", .str "success"), ("raw_response", .str r.text)], true⟩
  else
    let error_message := "API request failed: " ++ toString r.status
    match r.jsonOutcome with
    | .ok error_data =>
        (match error_data.pyIn "error" with
         | .error emsg => pyCatchAll token emsg
         | .ok true =>
             match error_data.pySubscript "error" with
             | .error emsg => pyCatchAll token emsg
             | .ok v =>
                 ⟨false, .obj [("error", .str (error_message ++ " - " ++ v.pyStr)),
                               ("details", error_data)], true⟩
         | .ok false =>
             match error_data.pyIn "message" with
             | .error emsg => pyCatchAll token emsg
             | .ok true =>
                 match error_data.pySubscript "message" with
                 | .error emsg => pyCatchAll token emsg
                 | .ok v =>
                     ⟨false, .obj [("error", .str (error_message ++ " - " ++ v.pyStr)),
                                   ("details", error_data)], true⟩
             | .ok false =>
                 ⟨false, .obj [("error", .str error_message), ("details", error_data)], true⟩)
    | .error _ =>
        let error_text := if r.text != "" then pySlice r.text 200 else ""
        ⟨false, .obj [("error", .str (error_message ++ " - " ++ error_text))], true⟩

/-- `make_api_request(path, method, token, params, data, timeout)`.
`ARGOCD_TOKEN` (the process-wide default read from the environment) and
the transport behaviour are extra parameters of the embedding.  `path`,
`params` and `data` are only ever handed to the transport, so they do
not influence the result beyond the oracle. -/
def make_api_request (path : String) (method : String) (token : Option String)
    (params : List (String × String)) (data : List (String × Json))
    (timeout : Nat) (ARGOCD_TOKEN : Option String)
    (outcome : TransportOutcome) : ApiResult :=
  let _ := path
  let _ := params
  let _ := data
  let token := if optStrFalsy token then ARGOCD_TOKEN else token
  if optStrFalsy token then
    ⟨false, .obj [("error", .str "Token is required. Please set the API_KEY environment variable.")],
     false⟩
  else
    let tok := token.getD ""
    if method_map.contains method = false then
      ⟨false, .obj [("error", .str ("Unsupported method: " ++ method))], false⟩
    else
      match outcome with
      | .ok r => handleResponse tok r
      | .timeoutException =>
          ⟨false, .obj [("error", .str ("Request timed out after " ++ toString timeout ++ " seconds"))],
           true⟩
      | .httpStatusError st msg =>
          ⟨false, .obj [("error", .str ("HTTP error: " ++ toString st ++ " - " ++ msg))], true⟩
      | .requestError msg =>
          let error_message :=
            if tok != "" && pyContains msg tok then pyReplace msg tok "[REDACTED]"
            else msg
          ⟨false, .obj [("error", .str ("Request error: " ++ error_message))], true⟩
      | .unexpectedError msg => pyCatchAll tok msg

/-! ## Agent invocation shim

The module `agent_argocd/agent.py` defining `_async_argocd_agent` and
`agent_argocd/state.py` defining the message/state shapes are not part
of the sources available here; only their test
(`tests/test_agent.py`) and graph wiring (`agent_argocd/graph.py`) are.
The shim is therefore modelled from the specification. -/

/-- The tag of a conversation message (`MsgType` in
`agent_argocd/state.py`). -/
inductive MsgType where
  | human
  | assistant
deriving DecidableEq

/-- A conversation message: a tag and text content. -/
structure Message where
  type : MsgType
  content : String
deriving DecidableEq

/-- The input half of the agent state: an ordered message list. -/
structure InputState where
  messages : List Message
deriving DecidableEq

/-- The output half of the agent state: an ordered message list. -/
structure OutputState where
  messages : List Message
deriving DecidableEq

/-- The state threaded through the agent call: input messages. -/
structure AgentState where
  input : InputState
deriving DecidableEq

/-- Modelled from the spec: the agent invocation shim
`_async_argocd_agent` (module `agent_argocd/agent.py`, not present in
the available sources).  Per the specification it "invokes a pre-built
tool-calling reasoning loop with the discovered tools, the LLM client,
and the input messages; awaits a single terminal result containing a
message list" and "translates each returned message into this system's
message shape, tagging it as an assistant message, and returns it as
the new state's output".  The reasoning loop (`agent.ainvoke`) is the
oracle `agent_ainvoke`, a function from the input messages to the
terminal result's message list. -/
def async_argocd_agent (state : AgentState)
    (agent_ainvoke : List Message → List Message) : OutputState :=
  ⟨(agent_ainvoke state.input.messages).map (fun m => ⟨MsgType.assistant, m.content⟩)⟩

/-! ## Helper lemmas -/

/-- A successful `objGet` lookup means `fields.any` finds the key (the
membership test `key in error_data` succeeds whenever the subscript
`error_data[key]` would). -/
theorem objGet_any (fields : List (String × Json)) (key : String) (v : Json)
    (h : objGet fields key = some v) : fields.any (fun p => p.1 == key) = true := by
  induction fields with
  | nil => simp [objGet] at h
  | cons p fs ih =>
      simp only [List.any_cons, Bool.or_eq_true]
      by_cases hp : (p.1 == key) = true
      · exact Or.inl hp
      · right
        apply ih
        simpa [objGet, List.filter_cons, hp] using h

/-- With a valid token and a supported method, `make_api_request`
reduces to `handleResponse` on the response the transport returned. -/
theorem make_api_request_ok (path method t : String)
    (params : List (String × String)) (data : List (String × Json))
    (timeout : Nat) (ARGOCD_TOKEN : Option String) (r : Response)
    (ht : t ≠ "") (hm : method ∈ method_map) :
    make_api_request path method (some t) params data timeout ARGOCD_TOKEN (.ok r) =
      handleResponse t r := by
  simp [make_api_request, optStrFalsy, ht, hm]

/-- The success bit of `handleResponse` is exactly the
`status_code in [200, 201, 202, 204]` test. -/
theorem handleResponse_success_eq (t : String) (r : Response) :
    (handleResponse t r).success = [200, 201, 202, 204].contains r.status := by
  unfold handleResponse
  cases hc : [200, 201, 202, 204].contains r.status with
  | true =>
      simp only [hc, if_true]
      by_cases h204 : (r.status == 204) = true <;>
        cases hj : r.jsonOutcome <;> simp [h204]
  | false =>
      simp only [hc, Bool.false_eq_true, if_false]
      cases hj : r.jsonOutcome with
      | error e => simp
      | ok j =>
          split <;> try rfl
          all_goals (split <;> try rfl)
          all_goals (split <;> try rfl)
          all_goals (split <;> rfl)

/-! ## Claim theorems -/

/-- **C1.** For every call to `make_api_request` with no token available
(the explicit token argument absent or empty, and the process-wide
default token absent or empty), the helper returns a failure result
whose error message says a token is required, and it performs no
network I/O: the result is the same for every transport behaviour and
its dispatched bit is clear. -/
theorem make_api_request_no_token_fails (path method : String)
    (token ARGOCD_TOKEN : Option String) (params : List (String × String))
    (data : List (String × Json)) (timeout : Nat) (outcome : TransportOutcome)
    (ht : optStrFalsy token = true) (he : optStrFalsy ARGOCD_TOKEN = true) :
    make_api_request path method token params data timeout ARGOCD_TOKEN outcome =
      ⟨false,
       .obj [("error", .str "Token is required. Please set the API_KEY environment variable.")],
       false⟩ := by
  simp [make_api_request, ht, he]

/-- Witness for C1: a concrete call with no explicit token and no
default token fails with the token-required error without dispatching,
whatever the transport would have done. -/
theorem make_api_request_no_token_fails_witness :
    optStrFalsy none = true ∧
    make_api_request "/api/v1/applications" "GET" none [] [] 30 none .timeoutException =
      ⟨false,
       .obj [("error", .str "Token is required. Please set the API_KEY environment variable.")],
       false⟩ :=
  ⟨rfl, make_api_request_no_token_fails _ _ _ _ _ _ _ _ rfl rfl⟩

/-- **C2.** For every method string outside
`{GET, POST, PUT, PATCH, DELETE}` (and any available token), the helper
returns a failure with the `Unsupported method` error and dispatches no
HTTP request: the result is the same for every transport behaviour and
its dispatched bit is clear. -/
theorem make_api_request_unsupported_method (path method t : String)
    (params : List (String × String)) (data : List (String × Json))
    (timeout : Nat) (ARGOCD_TOKEN : Option String) (outcome : TransportOutcome)
    (ht : t ≠ "") (hm : method_map.contains method = false) :
    make_api_request path method (some t) params data timeout ARGOCD_TOKEN outcome =
      ⟨false, .obj [("error", .str ("Unsupported method: " ++ method))], false⟩ := by
  have hm' : method ∉ method_map := by simpa using hm
  simp [make_api_request, optStrFalsy, ht, hm']

/-- Witness for C2: a concrete `HEAD` call fails with the
`Unsupported method` error without dispatching. -/
theorem make_api_request_unsupported_method_witness :
    "tok" ≠ "" ∧ method_map.contains "HEAD" = false ∧
    make_api_request "/api/v1/applications" "HEAD" (some "tok") [] [] 30 none .timeoutException =
      ⟨false, .obj [("error", .str "Unsupported method: HEAD")], false⟩ :=
  ⟨by decide, by decide,
   make_api_request_unsupported_method _ _ _ _ _ _ _ _ (by decide) (by decide)⟩

/-- **C3.** For every response with HTTP status 204 — whatever the
outcome of `response.json()` and whatever `response.text` — the helper
returns success with the fixed marker payload `{"status": "success"}`;
the body is never inspected or embedded. -/
theorem make_api_request_204_fixed_marker (path method t : String)
    (params : List (String × String)) (data : List (String × Json))
    (timeout : Nat) (ARGOCD_TOKEN : Option String)
    (jsonOut : Except Unit Json) (text : String)
    (ht : t ≠ "") (hm : method_map.contains method = true) :
    make_api_request path method (some t) params data timeout ARGOCD_TOKEN
        (.ok ⟨204, jsonOut, text⟩) =
      ⟨true, .obj [("status", .str "success")], true⟩ := by
  have hm' : method ∈ method_map := by simpa using hm
  simp [make_api_request, optStrFalsy, ht, hm', handleResponse]

/-- Witness for C3: a concrete 204 response with a non-empty, JSON
body still yields exactly the fixed marker. -/
theorem make_api_request_204_fixed_marker_witness :
    "tok" ≠ "" ∧ method_map.contains "DELETE" = true ∧
    make_api_request "/api/v1/applications/a" "DELETE" (some "tok") [] [] 30 none
        (.ok ⟨204, .ok (.obj [("junk", .str "ignored")]), "junk body"⟩) =
      ⟨true, .obj [("status", .str "success")], true⟩ :=
  ⟨by decide, by decide,
   make_api_request_204_fixed_marker _ _ _ _ _ _ _ _ _ (by decide) (by decide)⟩

/-- **C4.** For every response with status 200, 201 or 202 whose body
fails to parse as JSON (`response.json()` raises `ValueError`), the
helper returns success with a payload embedding the raw response text
next to a success marker; no exception escapes (the embedding is a
total function). -/
theorem make_api_request_2xx_nonjson_raw_text (path method t : String)
    (params : List (String × String)) (data : List (String × Json))
    (timeout : Nat) (ARGOCD_TOKEN : Option String) (st : Nat) (text : String)
    (ht : t ≠ "") (hm : method_map.contains method = true)
    (hs : st = 200 ∨ st = 201 ∨ st = 202) :
    make_api_request path method (some t) params data timeout ARGOCD_TOKEN
        (.ok ⟨st, .error (), text⟩) =
      ⟨true, .obj [("status", .str "success"), ("raw_response", .str text)], true⟩ := by
  have hm' : method ∈ method_map := by simpa using hm
  rcases hs with rfl | rfl | rfl <;>
    simp [make_api_request, optStrFalsy, ht, hm', handleResponse]

/-- Witness for C4: a concrete 200 response whose body is not JSON
yields success with the raw text embedded. -/
theorem make_api_request_2xx_nonjson_raw_text_witness :
    "tok" ≠ "" ∧ method_map.contains "GET" = true ∧ (200 = 200 ∨ 200 = 201 ∨ 200 = 202) ∧
    make_api_request "/api/v1/applications" "GET" (some "tok") [] [] 30 none
        (.ok ⟨200, .error (), "<html>not json</html>"⟩) =
      ⟨true, .obj [("status", .str "success"), ("raw_response", .str "<html>not json</html>")],
       true⟩ :=
  ⟨by decide, by decide, by decide,
   make_api_request_2xx_nonjson_raw_text _ _ _ _ _ _ _ _ _ (by decide) (by decide)
     (Or.inl rfl)⟩

/-- **C5.** For every response with a non-success status code: if its
body is JSON containing an `"error"` field with value `v` (or, failing
that — no `"error"` key — a `"message"` field with value `v`), the
helper returns a failure whose error message contains the Python
`str()` of `v` (together with the structured details); for a string
value `Json.str X`, `Json.pyStr` is `X` itself (final conjunct), so
the message contains `X` verbatim.  If the body is not JSON, the
failure message embeds the body text truncated to at most 200
characters. -/
theorem make_api_request_error_enrichment (path method t : String)
    (params : List (String × String)) (data : List (String × Json))
    (timeout : Nat) (ARGOCD_TOKEN : Option String) (r : Response)
    (ht : t ≠ "") (hm : method_map.contains method = true)
    (hs : [200, 201, 202, 204].contains r.status = false) :
    (∀ fields v, r.jsonOutcome = .ok (.obj fields) →
        objGet fields "error" = some v →
        ∃ pre post,
          make_api_request path method (some t) params data timeout ARGOCD_TOKEN (.ok r) =
            ⟨false, .obj [("error", .str (pre ++ v.pyStr ++ post)), ("details", .obj fields)],
             true⟩) ∧
    (∀ fields v, r.jsonOutcome = .ok (.obj fields) →
        fields.any (fun p => p.1 == "error") = false →
        objGet fields "message" = some v →
        ∃ pre post,
          make_api_request path method (some t) params data timeout ARGOCD_TOKEN (.ok r) =
            ⟨false, .obj [("error", .str (pre ++ v.pyStr ++ post)), ("details", .obj fields)],
             true⟩) ∧
    (r.jsonOutcome = .error () →
        make_api_request path method (some t) params data timeout ARGOCD_TOKEN (.ok r) =
          ⟨false,
           .obj [("error", .str ("API request failed: " ++ toString r.status ++ " - " ++
                                 pySlice r.text 200))], true⟩ ∧
        (pySlice r.text 200).length ≤ 200) ∧
    (∀ X, Json.pyStr (.str X) = X) := by
  have hm' : method ∈ method_map := by simpa using hm
  rw [make_api_request_ok _ _ _ _ _ _ _ _ ht hm']
  obtain ⟨st, jsonOut, text⟩ := r
  refine ⟨?_, ?_, ?_, fun X => rfl⟩
  · intro fields v hj hget
    simp only at hj hs
    subst hj
    have hany := objGet_any fields "error" v hget
    have hs' : ¬(st = 200 ∨ st = 201 ∨ st = 202 ∨ st = 204) := by simpa using hs
    refine ⟨"API request failed: " ++ toString st ++ " - ", "", ?_⟩
    unfold handleResponse
    simp [hs', Json.pyIn, hany, Json.pySubscript, hget, String.append_empty]
  · intro fields v hj hno hget
    simp only at hj hs
    subst hj
    have hany := objGet_any fields "message" v hget
    have hs' : ¬(st = 200 ∨ st = 201 ∨ st = 202 ∨ st = 204) := by simpa using hs
    refine ⟨"API request failed: " ++ toString st ++ " - ", "", ?_⟩
    unfold handleResponse
    simp [hs', Json.pyIn, hno, hany, Json.pySubscript, hget, String.append_empty]
  · intro hj
    simp only at hj hs
    subst hj
    have hs' : ¬(st = 200 ∨ st = 201 ∨ st = 202 ∨ st = 204) := by simpa using hs
    constructor
    · unfold handleResponse
      by_cases htext : (text != "") = true
      · simp [hs', htext]
      · have hempty : text = "" := by simpa using htext
        subst hempty
        simp [hs', pySlice]
    · show (text.toList.take 200).length ≤ 200
      simp [List.length_take]

/-- Witness for C5: a 403 response with a JSON `{"error": ...}` body
yields a failure message containing the server's error text; a 404
response whose JSON body has no `"error"` key but a `"message"` key
yields a failure message containing that message text; and a 500
response with a non-JSON body yields a failure embedding the raw body
(shorter than 200 characters, hence untruncated). -/
theorem make_api_request_error_enrichment_witness :
    (∃ pre post,
        make_api_request "/api/v1/applications" "GET" (some "tok") [] [] 30 none
            (.ok ⟨403, .ok (.obj [("error", Json.str "permission denied")]), ""⟩) =
          ⟨false, .obj [("error", .str (pre ++ "permission denied" ++ post)),
                        ("details", .obj [("error", Json.str "permission denied")])],
           true⟩) ∧
    (∃ pre post,
        make_api_request "/api/v1/applications" "GET" (some "tok") [] [] 30 none
            (.ok ⟨404, .ok (.obj [("message", Json.str "app not found")]), ""⟩) =
          ⟨false, .obj [("error", .str (pre ++ "app not found" ++ post)),
                        ("details", .obj [("message", Json.str "app not found")])],
           true⟩) ∧
    make_api_request "/api/v1/applications" "GET" (some "tok") [] [] 30 none
        (.ok ⟨500, .error (), "Internal Server Error"⟩) =
      ⟨false, .obj [("error", .str "API request failed: 500 - Internal Server Error")],
       true⟩ := by
  refine ⟨?_, ?_, ?_⟩
  · exact (make_api_request_error_enrichment "/api/v1/applications" "GET" "tok" [] [] 30 none
      ⟨403, .ok (.obj [("error", Json.str "permission denied")]), ""⟩
      (by decide) (by decide) (by decide)).1 _ (Json.str "permission denied") rfl rfl
  · exact (make_api_request_error_enrichment "/api/v1/applications" "GET" "tok" [] [] 30 none
      ⟨404, .ok (.obj [("message", Json.str "app not found")]), ""⟩
      (by decide) (by decide) (by decide)).2.1 _ (Json.str "app not found") rfl (by decide) rfl
  · exact ((make_api_request_error_enrichment "/api/v1/applications" "GET" "tok" [] [] 30 none
      ⟨500, .error (), "Internal Server Error"⟩
      (by decide) (by decide) (by decide)).2.2.1 rfl).1

/-- **C10.** With a token and a supported method, the set of HTTP
status codes `make_api_request` treats as success is exactly
`{200, 201, 202, 204}`: a dispatched response yields a success result
precisely when its status is one of those four. -/
theorem make_api_request_success_iff_status (path method t : String)
    (params : List (String × String)) (data : List (String × Json))
    (timeout : Nat) (ARGOCD_TOKEN : Option String) (r : Response)
    (ht : t ≠ "") (hm : method_map.contains method = true) :
    (make_api_request path method (some t) params data timeout ARGOCD_TOKEN
        (.ok r)).success = true ↔
      (r.status = 200 ∨ r.status = 201 ∨ r.status = 202 ∨ r.status = 204) := by
  have hm' : method ∈ method_map := by simpa using hm
  rw [make_api_request_ok _ _ _ _ _ _ _ _ ht hm', handleResponse_success_eq]
  simp

/-- Witness for C10: a 206 (2xx but outside the set) response is a
failure — its success bit is not true, matching the right-hand side
being false at 206. -/
theorem make_api_request_success_iff_status_witness :
    "tok" ≠ "" ∧ method_map.contains "GET" = true ∧
    ((make_api_request "/api/v1/applications" "GET" (some "tok") [] [] 30 none
        (.ok ⟨206, .ok (.obj []), "partial"⟩)).success = true ↔
      (206 = 200 ∨ 206 = 201 ∨ 206 = 202 ∨ 206 = 204)) :=
  ⟨by decide, by decide,
   make_api_request_success_iff_status _ _ _ _ _ _ _ _ (by decide) (by decide)⟩

/-- Counterexample to **C6** as stated: with bearer token `"D]tail"`
and a transport request error whose message `"D]tailtail"` contains the
token, the code replaces every occurrence of the token with
`[REDACTED]`, yet the returned failure message
`"Request error: [REDACTED]tail"` still contains the token — it
straddles the tail of the inserted placeholder and the remaining text.
So "the failure result does not contain the token" is false in
general. -/
theorem make_api_request_redaction_counterexample :
    pyContains "D]tailtail" "D]tail" = true ∧
    make_api_request "/api/v1/applications" "GET" (some "D]tail") [] [] 30 none
        (.requestError "D]tailtail") =
      ⟨false, .obj [("error", .str "Request error: [REDACTED]tail")], true⟩ ∧
    pyContains "Request error: [REDACTED]tail" "D]tail" = true :=
  ⟨rfl, rfl, rfl⟩

/-- **C6 (amended).** For every call in which the underlying transport
raises a request error whose message contains the bearer token, the
returned failure message is `Request error: ` followed by the
transport error string with every occurrence of the token replaced by
the fixed placeholder `[REDACTED]` (Python `str.replace` semantics:
left to right, non-overlapping).  The original claim's stronger
consequence — that the result never contains the token — fails when
the token overlaps the placeholder text, as the counterexample
shows. -/
theorem make_api_request_requestError_redacts (path method t msg : String)
    (params : List (String × String)) (data : List (String × Json))
    (timeout : Nat) (ARGOCD_TOKEN : Option String)
    (ht : t ≠ "") (hm : method_map.contains method = true)
    (hin : pyContains msg t = true) :
    make_api_request path method (some t) params data timeout ARGOCD_TOKEN
        (.requestError msg) =
      ⟨false, .obj [("error", .str ("Request error: " ++ pyReplace msg t "[REDACTED]"))],
       true⟩ := by
  have hm' : method ∈ method_map := by simpa using hm
  simp [make_api_request, optStrFalsy, ht, hm', hin]

/-- Witness for amended C6: a concrete transport error embedding the
token surfaces with the token substituted out. -/
theorem make_api_request_requestError_redacts_witness :
    "secr3t" ≠ "" ∧ method_map.contains "GET" = true ∧
    pyContains "Connection refused for bearer secr3t" "secr3t" = true ∧
    make_api_request "/api/v1/applications" "GET" (some "secr3t") [] [] 30 none
        (.requestError "Connection refused for bearer secr3t") =
      ⟨false,
       .obj [("error",
         .str ("Request error: " ++
               pyReplace "Connection refused for bearer secr3t" "secr3t" "[REDACTED]"))],
       true⟩ :=
  ⟨by decide, by decide, by decide,
   make_api_request_requestError_redacts _ _ _ _ _ _ _ _
     (by decide) (by decide) (by decide)⟩

/-- Counterexample to **C7** as stated: the claim asserts that the
unexpected-error (catch-all) branch passes a token occurring in the
exception message through unmodified, but the `except Exception`
clause redacts it: with token `"sekret"` and an unexpected exception
whose message is `"boom sekret boom"`, the surfaced message carries
`[REDACTED]` and no longer contains the token. -/
theorem make_api_request_catchall_redacts_counterexample :
    pyContains "boom sekret boom" "sekret" = true ∧
    make_api_request "/api/v1/applications" "GET" (some "sekret") [] [] 30 none
        (.unexpectedError "boom sekret boom") =
      ⟨false, .obj [("error", .str "Unexpected error: boom [REDACTED] boom")], true⟩ ∧
    pyContains "Unexpected error: boom [REDACTED] boom" "sekret" = false :=
  ⟨rfl, rfl, rfl⟩

/-- **C7 (amended).** The redaction logic scrubs the token from the
transport-error branch and from the unexpected-error (catch-all)
branch; only the HTTP-status-error branch passes a token occurring in
the exception message through to the returned failure message
unmodified (the timeout branch embeds no exception text at all). -/
theorem make_api_request_redaction_by_branch (path method t msg : String) (st : Nat)
    (params : List (String × String)) (data : List (String × Json))
    (timeout : Nat) (ARGOCD_TOKEN : Option String)
    (ht : t ≠ "") (hm : method_map.contains method = true)
    (hin : pyContains msg t = true) :
    make_api_request path method (some t) params data timeout ARGOCD_TOKEN
        (.httpStatusError st msg) =
      ⟨false, .obj [("error", .str ("HTTP error: " ++ toString st ++ " - " ++ msg))],
       true⟩ ∧
    make_api_request path method (some t) params data timeout ARGOCD_TOKEN
        (.unexpectedError msg) =
      ⟨false, .obj [("error", .str ("Unexpected error: " ++ pyReplace msg t "[REDACTED]"))],
       true⟩ := by
  have hm' : method ∈ method_map := by simpa using hm
  constructor <;> simp [make_api_request, optStrFalsy, pyCatchAll, ht, hm', hin]

/-- Witness for amended C7: with a concrete token inside the exception
message, the HTTP-status-error branch surfaces it verbatim while the
catch-all branch redacts it. -/
theorem make_api_request_redaction_by_branch_witness :
    "sekret" ≠ "" ∧ method_map.contains "GET" = true ∧
    pyContains "denied for sekret" "sekret" = true ∧
    (make_api_request "/api/v1/applications" "GET" (some "sekret") [] [] 30 none
        (.httpStatusError 500 "denied for sekret") =
      ⟨false, .obj [("error", .str ("HTTP error: " ++ toString 500 ++ " - " ++ "denied for sekret"))],
       true⟩ ∧
    make_api_request "/api/v1/applications" "GET" (some "sekret") [] [] 30 none
        (.unexpectedError "denied for sekret") =
      ⟨false,
       .obj [("error",
         .str ("Unexpected error: " ++ pyReplace "denied for sekret" "sekret" "[REDACTED]"))],
       true⟩) :=
  ⟨by decide, by decide, by decide,
   make_api_request_redaction_by_branch _ _ _ _ _ _ _ _ _
     (by decide) (by decide) (by decide)⟩

/-- If `handleResponse` reports failure, its payload is a dict whose
first entry is a human-readable `"error"` message string. -/
theorem handleResponse_payload_error (t : String) (r : Response)
    (hfail : (handleResponse t r).success = false) :
    ∃ msg rest,
      (handleResponse t r).payload = .obj (("error", Json.str msg) :: rest) := by
  have hc : [200, 201, 202, 204].contains r.status = false := by
    rw [← handleResponse_success_eq t r]; exact hfail
  obtain ⟨st, jsonOut, text⟩ := r
  simp only at hc
  unfold handleResponse
  simp only [hc, Bool.false_eq_true, if_false]
  cases jsonOut with
  | error e => exact ⟨_, _, rfl⟩
  | ok j =>
      split <;> try exact ⟨_, _, rfl⟩
      all_goals (split <;> try exact ⟨_, _, rfl⟩)
      all_goals (split <;> try exact ⟨_, _, rfl⟩)
      all_goals (split <;> exact ⟨_, _, rfl⟩)

/-- **C8.** `make_api_request` never raises an exception to its caller:
the embedding is a total function, and for every input and every
behaviour of the underlying transport, a failure result's payload is a
dict carrying a human-readable `"error"` message string as its first
entry. -/
theorem make_api_request_failure_always_tagged (path method : String)
    (token ARGOCD_TOKEN : Option String) (params : List (String × String))
    (data : List (String × Json)) (timeout : Nat) (outcome : TransportOutcome)
    (hfail :
      (make_api_request path method token params data timeout ARGOCD_TOKEN outcome).success
        = false) :
    ∃ msg rest,
      (make_api_request path method token params data timeout ARGOCD_TOKEN outcome).payload
        = .obj (("error", Json.str msg) :: rest) := by
  by_cases h1 : optStrFalsy (if optStrFalsy token then ARGOCD_TOKEN else token) = true
  · simp only [make_api_request, h1, if_true]
    exact ⟨_, _, rfl⟩
  · have h1' : optStrFalsy (if optStrFalsy token then ARGOCD_TOKEN else token) = false := by
      simpa using h1
    by_cases h2 : method_map.contains method = true
    · simp only [make_api_request, h1', Bool.false_eq_true, if_false, h2,
        Bool.true_eq_false] at hfail ⊢
      cases outcome with
      | ok r => exact handleResponse_payload_error _ r hfail
      | timeoutException => exact ⟨_, _, rfl⟩
      | httpStatusError st msg => exact ⟨_, _, rfl⟩
      | requestError msg => exact ⟨_, _, rfl⟩
      | unexpectedError msg => exact ⟨_, _, rfl⟩
    · have h2' : method_map.contains method = false := by simpa using h2
      simp only [make_api_request, h1', Bool.false_eq_true, if_false, h2', if_true]
      exact ⟨_, _, rfl⟩

/-- Witness for C8: a concrete timed-out call fails and its payload
leads with an `"error"` message string. -/
theorem make_api_request_failure_always_tagged_witness :
    (make_api_request "/api/v1/applications" "GET" (some "tok") [] [] 30 none
        .timeoutException).success = false ∧
    ∃ msg rest,
      (make_api_request "/api/v1/applications" "GET" (some "tok") [] [] 30 none
          .timeoutException).payload = .obj (("error", Json.str msg) :: rest) :=
  ⟨rfl, make_api_request_failure_always_tagged _ _ _ _ _ _ _ _ rfl⟩

/-- **C9.** Given an input state holding exactly one human message
`"sync app test-app"` and a tool-agent oracle that returns exactly one
assistant message `"Sync completed successfully"`, the agent invocation
shim returns an output state containing exactly one message, tagged as
an assistant message, with that content. -/
theorem async_argocd_agent_sync_success :
    async_argocd_agent ⟨⟨[⟨MsgType.human, "sync app test-app"⟩]⟩⟩
        (fun _ => [⟨MsgType.assistant, "Sync completed successfully"⟩]) =
      ⟨[⟨MsgType.assistant, "Sync completed successfully"⟩]⟩ := rfl

end AgentArgocd
